import Mathlib

/-!
Verification of the AgentArcade core subsystems.

This development is a shallow embedding of the repository's tournament and
skill-chip code:

* the skill-chip rarity / fusion engine (`SkillChipSystem`, `ChipDatabase`
  in `src/unnamed/part_003`),
* the tournament bracket generator, round processing and winner advancement
  (`BracketGenerator`, `TournamentManager` in `src/js/modules/scenarios.js`),
* the scenario execution loop (`ScenarioExecution` in
  `src/js/modules/scenarios.js`).

JavaScript numbers that only ever hold exact small decimals are embedded as
rationals; JavaScript exceptions are embedded as `Except`/`Option` results;
object mutation is embedded as explicit state passing.  External collaborators
(storage, the random generator, wall-clock time, the agent decision capability)
are passed in as explicit oracle parameters.
-/

namespace AgentArcade

/-! ### Skill chips: data model (src/unnamed/part_003) -/

/-- Chip rarity, ordered `common < rare < epic < legendary`. -/
inductive Rarity where
  | common
  | rare
  | epic
  | legendary
deriving DecidableEq, Repr

/-- Chip category enum. -/
inductive Category where
  | processing
  | logic
  | memory
  | synergy
  | special
deriving DecidableEq, Repr

/-- One entry of a chip's `effects` array: `{ name, value }`. -/
structure Effect where
  name : String
  value : Int
deriving DecidableEq, Repr

/-- A skill chip as built by `ChipDatabase.create` / `ChipDatabase.createFusion`.
Fields irrelevant to every claim (`description`, `acquired` timestamp,
`unique`) are omitted; `type` is renamed `ctype`. -/
structure SkillChip where
  id : String
  ctype : String
  name : String
  category : Category
  rarity : Rarity
  effects : List Effect
  fused : Bool
  fusedFrom : Option (String × String)
deriving DecidableEq, Repr

/-- `SkillChipSystem.initializeFusionRules`: the seven category pairs; the
source inserts each pair under both key orders into `fusionRules`. -/
def fusionRulePairs : List (Category × Category) :=
  [(.processing, .logic),
   (.processing, .memory),
   (.logic, .memory),
   (.logic, .synergy),
   (.memory, .synergy),
   (.processing, .synergy),
   (.synergy, .special)]

/-- The key set of the `fusionRules` map: both orders of every rule pair. -/
def fusionRuleKeys : List (Category × Category) :=
  fusionRulePairs ++ fusionRulePairs.map (fun p => (p.2, p.1))

/-- `SkillChipSystem.canFuse`: same rarity required, then the map is probed
under the key `cat1-cat2` and the reverse key `cat2-cat1`. -/
def canFuse (chip1 chip2 : SkillChip) : Bool :=
  if chip1.rarity ≠ chip2.rarity then
    false
  else
    decide ((chip1.category, chip2.category) ∈ fusionRuleKeys) ||
    decide ((chip2.category, chip1.category) ∈ fusionRuleKeys)

/-- `const rarityOrder = ['common', 'rare', 'epic', 'legendary']` in
`ChipDatabase.createFusion`. -/
def rarityOrder : List Rarity := [.common, .rare, .epic, .legendary]

/-- `ChipDatabase.createFusion`.  `generateId` draws randomness, so the fresh
id is passed in as `newId`.  Under the guard `currentIndex <
rarityOrder.length - 1` the access `rarityOrder[currentIndex + 1]` is in
bounds, so `getD`'s default is never used. -/
def createFusion (chip1 chip2 : SkillChip) (newId : String) : SkillChip :=
  let fusedEffects := chip1.effects ++ chip2.effects
  let fusedName := chip1.name ++ " + " ++ chip2.name
  let currentIndex := rarityOrder.findIdx (fun r => r = chip1.rarity)
  let newRarity :=
    if currentIndex < rarityOrder.length - 1 then
      rarityOrder.getD (currentIndex + 1) chip1.rarity
    else chip1.rarity
  { id := newId
    ctype := "fused"
    name := fusedName
    category := .synergy
    rarity := newRarity
    effects := fusedEffects
    fused := true
    fusedFrom := some (chip1.id, chip2.id) }

/-- The user collection (`this.userCollection`, a JS `Map` keyed by chip id),
embedded as an insertion-ordered association list. -/
def Collection := List (String × SkillChip)

/-- JS `Map.get`. -/
def Collection.get (coll : Collection) (id : String) : Option SkillChip :=
  match (List.find? (fun kv => kv.1 = id) coll) with
  | some kv => some kv.2
  | none => none

/-- JS `Map.delete`. -/
def Collection.del (coll : Collection) (id : String) : Collection :=
  List.filter (fun kv => kv.1 ≠ id) coll

/-- JS `Map.set` as used by `addChipToCollection`. -/
def Collection.setChip (coll : Collection) (id : String) (c : SkillChip) :
    Collection :=
  List.append coll [(id, c)]

/-- `SkillChipSystem.fuseChips`.  Both lookups and the `canFuse` check throw
before any mutation; on success the two sources are deleted and the fused chip
added (`addChipToCollection`).  Storage writes go to the external persistence
collaborator and do not touch the local collection. -/
def fuseChips (coll : Collection) (chip1Id chip2Id newId : String) :
    Except String (Collection × SkillChip) :=
  match coll.get chip1Id, coll.get chip2Id with
  | some chip1, some chip2 =>
    if ¬ canFuse chip1 chip2 then
      .error "These chips cannot be fused"
    else
      let fusedChip := createFusion chip1 chip2 newId
      let coll1 := (coll.del chip1Id).del chip2Id
      .ok (coll1.setChip fusedChip.id fusedChip, fusedChip)
  | _, _ => .error "One or both chips not found in collection"

/-- The collection after a `fuseChips` call: a thrown error leaves the
caller's collection as it was. -/
def fuseChipsColl (coll : Collection) (chip1Id chip2Id newId : String) :
    Collection :=
  match fuseChips coll chip1Id chip2Id newId with
  | .ok (coll', _) => coll'
  | .error _ => coll

/-- Modelled from the spec's rarity scale (for comparison with the source's
`indexOf`-based computation): one step up, legendary stays legendary. -/
def rarityStepUp : Rarity → Rarity
  | .common => .rare
  | .rare => .epic
  | .epic => .legendary
  | .legendary => .legendary

/-- Unordered membership of a category pair in the seven-entry compatibility
table, stated the way the claim states it. -/
def compatibleUnordered (c1 c2 : Category) : Prop :=
  (c1, c2) ∈ fusionRulePairs ∨ (c2, c1) ∈ fusionRulePairs

instance (c1 c2 : Category) : Decidable (compatibleUnordered c1 c2) := by
  unfold compatibleUnordered
  infer_instance

end AgentArcade

namespace AgentArcade

/-! ### Theorems for claims C3, C4, C5 -/

/-- **C4.** `canFuse(a, b)` returns true exactly when the rarities are equal
and the unordered category pair is one of the seven table entries; in
particular any pair with differing rarity yields false. -/
theorem canFuse_iff (c1 c2 : SkillChip) :
    canFuse c1 c2 = true ↔
      (c1.rarity = c2.rarity ∧ compatibleUnordered c1.category c2.category) := by
  have h : ∀ (r1 r2 : Rarity) (k1 k2 : Category),
      ((if r1 ≠ r2 then false
        else decide ((k1, k2) ∈ fusionRuleKeys) ||
             decide ((k2, k1) ∈ fusionRuleKeys)) = true
        ↔ (r1 = r2 ∧ compatibleUnordered k1 k2)) := by
    intro r1 r2 k1 k2
    cases r1 <;> cases r2 <;> cases k1 <;> cases k2 <;> decide
  simpa [canFuse] using h c1.rarity c2.rarity c1.category c2.category

/-- **C3.** For chips of equal rarity and compatible categories, the fused
chip's effects are the concatenation of the inputs' effects (hence its length
is the sum of the input lengths), its rarity is one step above the shared
input rarity (legendary stays legendary), and its category is `synergy`. -/
theorem createFusion_spec (c1 c2 : SkillChip) (newId : String)
    (h : canFuse c1 c2 = true) :
    c1.rarity = c2.rarity ∧
    (createFusion c1 c2 newId).effects = c1.effects ++ c2.effects ∧
    (createFusion c1 c2 newId).effects.length
      = c1.effects.length + c2.effects.length ∧
    (createFusion c1 c2 newId).rarity = rarityStepUp c1.rarity ∧
    (createFusion c1 c2 newId).category = Category.synergy := by
  have hr : c1.rarity = c2.rarity := ((canFuse_iff c1 c2).1 h).1
  have hrar : ∀ (r : Rarity),
      (if rarityOrder.findIdx (fun x => x = r) < rarityOrder.length - 1 then
        rarityOrder.getD (rarityOrder.findIdx (fun x => x = r) + 1) r
      else r) = rarityStepUp r := by
    intro r
    cases r <;> decide
  refine ⟨hr, rfl, by simp [createFusion], ?_, rfl⟩
  simpa [createFusion] using hrar c1.rarity

/-- A concrete rare processing chip, used by the C3 witness. -/
def chipExA : SkillChip :=
  ⟨"a", "t", "A", .processing, .rare, [⟨"Speed", 10⟩], false, none⟩

/-- A concrete rare logic chip, used by the C3 witness. -/
def chipExB : SkillChip :=
  ⟨"b", "t", "B", .logic, .rare, [⟨"Logic", 5⟩, ⟨"Acc", 3⟩], false, none⟩

/-- Witness for C3 at two concrete compatible rare chips. -/
theorem createFusion_spec_witness :
    chipExA.rarity = chipExB.rarity ∧
    (createFusion chipExA chipExB "f").effects
      = chipExA.effects ++ chipExB.effects ∧
    (createFusion chipExA chipExB "f").effects.length
      = chipExA.effects.length + chipExB.effects.length ∧
    (createFusion chipExA chipExB "f").rarity = rarityStepUp chipExA.rarity ∧
    (createFusion chipExA chipExB "f").category = Category.synergy :=
  createFusion_spec chipExA chipExB "f" (by decide)

/-- **C5.** When the two named chips are owned but `canFuse` is false, or when
either id is missing from the collection, `fuseChips` returns an error
synchronously and the owning collection is left unchanged. -/
theorem fuseChips_error_preserves (coll : Collection)
    (chip1Id chip2Id newId : String)
    (h : (coll.get chip1Id = none ∨ coll.get chip2Id = none) ∨
         (∃ chip1 chip2, coll.get chip1Id = some chip1 ∧
            coll.get chip2Id = some chip2 ∧ canFuse chip1 chip2 = false)) :
    (∃ msg, fuseChips coll chip1Id chip2Id newId = .error msg) ∧
    fuseChipsColl coll chip1Id chip2Id newId = coll := by
  have herr : ∃ msg, fuseChips coll chip1Id chip2Id newId = .error msg := by
    rcases h with hmiss | ⟨chip1, chip2, h1, h2, hcf⟩
    · rcases hmiss with h1 | h2
      · refine ⟨"One or both chips not found in collection", ?_⟩
        unfold fuseChips
        rcases h2 : coll.get chip2Id with _ | c2 <;> simp [h1, h2]
      · refine ⟨"One or both chips not found in collection", ?_⟩
        unfold fuseChips
        rcases h1 : coll.get chip1Id with _ | c1 <;> simp [h1, h2]
    · refine ⟨"These chips cannot be fused", ?_⟩
      unfold fuseChips
      simp [h1, h2, hcf]
  refine ⟨herr, ?_⟩
  obtain ⟨msg, hmsg⟩ := herr
  unfold fuseChipsColl
  simp [hmsg]

/-- A concrete common processing chip, used by the C5 witness. -/
def chipExC : SkillChip :=
  ⟨"c", "t", "C", .processing, .common, [], false, none⟩

/-- A second concrete common processing chip, used by the C5 witness. -/
def chipExD : SkillChip :=
  ⟨"d", "t", "D", .processing, .common, [], false, none⟩

/-- A concrete two-chip collection, used by the C5 witness. -/
def collEx : Collection := [("c", chipExC), ("d", chipExD)]

/-- Witness for C5: fusing two same-category (incompatible) common chips in a
two-chip collection errors and leaves the collection unchanged. -/
theorem fuseChips_error_preserves_witness :
    (∃ msg, fuseChips collEx "c" "d" "f" = .error msg) ∧
    fuseChipsColl collEx "c" "d" "f" = collEx := by
  exact fuseChips_error_preserves collEx "c" "d" "f"
    (Or.inr ⟨chipExC, chipExD, by decide, by decide, by decide⟩)

/-! ### RewardRoller: `SkillChipSystem.rollRarity` (src/unnamed/part_003)

JS numbers are embedded as rationals; the decimal literals involved are exact.
`Math.random()` produces the uniform draw, embedded as the parameter `roll`.
-/

/-- The `weights` object; JS object literals keep insertion order, so the
iteration order in `rollRarity` is common, rare, epic, legendary. -/
structure RarityWeights where
  common : ℚ
  rare : ℚ
  epic : ℚ
  legendary : ℚ
deriving Repr

/-- `this.rarityWeights = { common: 0.70, rare: 0.25, epic: 0.045,
legendary: 0.005 }`. -/
def baseRarityWeights : RarityWeights := ⟨70/100, 25/100, 45/1000, 5/1000⟩

/-- The parts of the roll context `rollRarity` reads:
`context.tournament?.tier`, `context.firstWin`, `context.perfectScore`. -/
structure RollContext where
  tier : Option String
  firstWin : Bool
  perfectScore : Bool

/-- The modifier block of `rollRarity`: an `if/else if` on the tournament
tier, then independent `if`s for first win and perfect score, each multiplying
individual weights. -/
def applyModifiers (context : RollContext) (w0 : RarityWeights) :
    RarityWeights :=
  let w1 :=
    if context.tier = some "legendary" then
      { w0 with legendary := w0.legendary * 5, epic := w0.epic * 2 }
    else if context.tier = some "epic" then
      { w0 with epic := w0.epic * 3, rare := w0.rare * (3/2) }
    else w0
  let w2 :=
    if context.firstWin then
      { w1 with rare := w1.rare * 2, epic := w1.epic * (3/2) }
    else w1
  if context.perfectScore then
    { w2 with legendary := w2.legendary * 10, epic := w2.epic * 3 }
  else w2

/-- The normalization block: every weight is divided by the total. -/
def normalizeWeights (w : RarityWeights) : RarityWeights :=
  let totalWeight := w.common + w.rare + w.epic + w.legendary
  ⟨w.common / totalWeight, w.rare / totalWeight,
   w.epic / totalWeight, w.legendary / totalWeight⟩

/-- `SkillChipSystem.rollRarity`: the `for (const [rarity, weight] of
Object.entries(weights))` loop visits common, rare, epic, legendary in that
order, accumulating `cumulative` and returning at `roll <= cumulative`; the
trailing `return 'common'` is the fallback. -/
def rollRarity (context : RollContext) (roll : ℚ) : Rarity :=
  let w := normalizeWeights (applyModifiers context baseRarityWeights)
  if roll ≤ w.common then .common
  else if roll ≤ w.common + w.rare then .rare
  else if roll ≤ w.common + w.rare + w.epic then .epic
  else if roll ≤ w.common + w.rare + w.epic + w.legendary then .legendary
  else .common

/-- Modelled from the spec: cumulative-sum threshold selection over an
ordered rarity/weight list, defaulting to `common` when the cumulative sum
never reaches the roll. -/
def cumulativeSelect (roll : ℚ) : ℚ → List (Rarity × ℚ) → Rarity
  | _, [] => .common
  | acc, (r, wt) :: rest =>
    if roll ≤ acc + wt then r else cumulativeSelect roll (acc + wt) rest

/-- Modelled from the spec: multiply the base weights by the active context
modifiers, renormalize to sum 1, then map the draw through cumulative-sum
thresholds in the fixed order common, rare, epic, legendary. -/
def rollRaritySpec (context : RollContext) (roll : ℚ) : Rarity :=
  let w := normalizeWeights (applyModifiers context baseRarityWeights)
  cumulativeSelect roll 0
    [(.common, w.common), (.rare, w.rare),
     (.epic, w.epic), (.legendary, w.legendary)]

/-- All four modified weights stay strictly positive: each multiplier is
positive and the base weights are positive. -/
theorem applyModifiers_pos (context : RollContext) :
    0 < (applyModifiers context baseRarityWeights).common ∧
    0 < (applyModifiers context baseRarityWeights).rare ∧
    0 < (applyModifiers context baseRarityWeights).epic ∧
    0 < (applyModifiers context baseRarityWeights).legendary := by
  simp only [applyModifiers, baseRarityWeights]
  split_ifs <;> norm_num

/-- **C7.** `rollRarity` renormalizes the modified weights to sum exactly 1,
agrees with the spec's multiply-renormalize-cumulative-threshold algorithm at
every context and draw, and falls back to `common` when the cumulative sum
never reaches the roll; being a total function into `Rarity`, it always
returns one of the four rarities and never raises. -/
theorem rollRarity_spec (context : RollContext) (roll : ℚ) :
    (normalizeWeights (applyModifiers context baseRarityWeights)).common
      + (normalizeWeights (applyModifiers context baseRarityWeights)).rare
      + (normalizeWeights (applyModifiers context baseRarityWeights)).epic
      + (normalizeWeights (applyModifiers context baseRarityWeights)).legendary
      = 1 ∧
    rollRarity context roll = rollRaritySpec context roll ∧
    (1 < roll → rollRarity context roll = Rarity.common) := by
  obtain ⟨hc, hr, he, hl⟩ := applyModifiers_pos context
  have ht : 0 < (applyModifiers context baseRarityWeights).common
      + (applyModifiers context baseRarityWeights).rare
      + (applyModifiers context baseRarityWeights).epic
      + (applyModifiers context baseRarityWeights).legendary := by linarith
  have hsum : (normalizeWeights (applyModifiers context baseRarityWeights)).common
      + (normalizeWeights (applyModifiers context baseRarityWeights)).rare
      + (normalizeWeights (applyModifiers context baseRarityWeights)).epic
      + (normalizeWeights (applyModifiers context baseRarityWeights)).legendary
      = 1 := by
    simp only [normalizeWeights]
    rw [div_add_div_same, div_add_div_same, div_add_div_same]
    exact div_self (ne_of_gt ht)
  refine ⟨hsum, ?_, ?_⟩
  · simp only [rollRarity, rollRaritySpec, cumulativeSelect, zero_add]
  · intro hroll
    have hc' : 0 < (normalizeWeights (applyModifiers context baseRarityWeights)).common := by
      simp only [normalizeWeights]
      exact div_pos hc ht
    have hr' : 0 < (normalizeWeights (applyModifiers context baseRarityWeights)).rare := by
      simp only [normalizeWeights]
      exact div_pos hr ht
    have he' : 0 < (normalizeWeights (applyModifiers context baseRarityWeights)).epic := by
      simp only [normalizeWeights]
      exact div_pos he ht
    have hl' : 0 < (normalizeWeights (applyModifiers context baseRarityWeights)).legendary := by
      simp only [normalizeWeights]
      exact div_pos hl ht
    simp only [rollRarity]
    split_ifs <;> first | rfl | (exfalso; linarith)

/-- Witness for C7 at a concrete context and at the out-of-range draw 2. -/
theorem rollRarity_spec_witness :
    rollRarity ⟨none, false, false⟩ (1/2) = rollRaritySpec ⟨none, false, false⟩ (1/2) ∧
    (1 < (2 : ℚ) ∧ rollRarity ⟨none, false, false⟩ 2 = Rarity.common) :=
  ⟨(rollRarity_spec ⟨none, false, false⟩ (1/2)).2.1,
   by norm_num,
   (rollRarity_spec ⟨none, false, false⟩ 2).2.2 (by norm_num)⟩

/-! ### Bracket generation: `BracketGenerator` (src/js/modules/scenarios.js)

Brackets are polymorphic in the participant payload because `team-battle`
reuses single elimination over team objects.
-/

/-- A tournament participant as stored by `joinTournament`; only `agentId`
matters to the bracket logic. -/
structure Participant where
  agentId : String
deriving DecidableEq, Repr, Inhabited

/-- A match result as produced by `TournamentManager.runMatch`: either a
winner/loser pair or a null winner with an error message.  The `score` and
`metrics` payloads are drawn from `Math.random` and are claim-irrelevant, so
they are omitted. -/
structure MatchResult where
  winner : Option String
  loser : Option String
  error : Option String
deriving DecidableEq, Repr, Inhabited

/-- One entry of `getGauntletScenarios()`. -/
structure GauntletScenario where
  id : String
  difficulty : String
deriving DecidableEq, Repr, Inhabited

/-- A match object as built by the generators.  Generated objects carry no
`result` and gauntlet matches no `participant2`; a JS property that is absent
is embedded as `none`. -/
structure MatchSlot (P : Type) where
  id : String
  participant1 : Option P
  participant2 : Option P
  scenario : Option GauntletScenario
  status : String
  result : Option MatchResult
deriving DecidableEq, Repr, Inhabited

/-- A round object.  Objects built by `BracketGenerator` never carry a
`nextRound` property, so `nextRound` is `none` for them; `advanceWinners`
reads it. -/
structure Round (P : Type) where
  id : String
  number : Nat
  matches' : List (MatchSlot P)
  isFinal : Bool
  nextRound : Option String
deriving DecidableEq, Repr, Inhabited

/-- A bracket: `{ type, rounds }`. -/
structure Bracket (P : Type) where
  btype : String
  rounds : List (Round P)
deriving DecidableEq, Repr, Inhabited

/-- The pairing loop body of `generateSingleElimination`: walk the current
participants two at a time (`i += 2`); a full pair becomes a pending match
(ids count from `idx`, which starts at 1), an unpaired trailing participant
is pushed onto `nextRoundParticipants` (the bye). -/
def pairOffSE {P : Type} (roundNumber idx : Nat) :
    List P → List (MatchSlot P) × List P
  | [] => ([], [])
  | [p] => ([], [p])
  | p :: q :: rest =>
    let r := pairOffSE roundNumber (idx + 1) rest
    ({ id := "match_" ++ toString roundNumber ++ "_" ++ toString idx,
       participant1 := some p, participant2 := some q,
       scenario := none, status := "pending", result := none } :: r.1, r.2)

/-- At most one participant receives a bye per pairing pass. -/
theorem pairOffSE_snd_length {P : Type} :
    ∀ (ps : List P) (roundNumber idx : Nat),
      (pairOffSE roundNumber idx ps).2.length ≤ 1
  | [], _, _ => by simp [pairOffSE]
  | [p], _, _ => by simp [pairOffSE]
  | p :: q :: rest, roundNumber, idx => by
    simpa [pairOffSE] using pairOffSE_snd_length rest roundNumber (idx + 1)

/-- The `while (currentParticipants.length > 1)` loop of
`generateSingleElimination`: build one round from the current participants,
then continue with `nextRoundParticipants` — which holds only the byes, since
the source never adds winner placeholders. -/
def seRounds {P : Type} (roundNumber : Nat) (ps : List P) : List (Round P) :=
  if h : 1 < ps.length then
    { id := "round_" ++ toString roundNumber,
      number := roundNumber,
      matches' := (pairOffSE roundNumber 1 ps).1,
      isFinal := decide (ps.length ≤ 2),
      nextRound := none }
      :: seRounds (roundNumber + 1) (pairOffSE roundNumber 1 ps).2
  else []
termination_by ps.length
decreasing_by
  have hb := pairOffSE_snd_length ps roundNumber 1
  omega

/-- `BracketGenerator.generateSingleElimination`. -/
def generateSingleElimination {P : Type} (participants : List P) : Bracket P :=
  ⟨"single-elimination", seRounds 1 participants⟩

/-- One row of `generateRoundRobin`'s double loop: participant `p` against
every later participant, match ids counting on from `idx`. -/
def rrRow {P : Type} (p : P) (idx : Nat) : List P → List (MatchSlot P)
  | [] => []
  | q :: qs =>
    { id := "match_" ++ toString idx,
      participant1 := some p, participant2 := some q,
      scenario := none, status := "pending", result := none } :: rrRow p (idx + 1) qs

/-- The double loop of `generateRoundRobin`: all pairs `(i, j)` with
`i < j`, in order. -/
def rrPairs {P : Type} (idx : Nat) : List P → List (MatchSlot P)
  | [] => []
  | p :: rest => rrRow p idx rest ++ rrPairs (idx + rest.length) rest

/-- `BracketGenerator.generateRoundRobin`: all pairs in one final round. -/
def generateRoundRobin {P : Type} (participants : List P) : Bracket P :=
  ⟨"round-robin",
   [{ id := "round_1", number := 1, matches' := rrPairs 1 participants,
      isFinal := true, nextRound := none }]⟩

/-- `getGauntletScenarios()`. -/
def gauntletScenarios : List GauntletScenario :=
  [⟨"gauntlet_1", "easy"⟩, ⟨"gauntlet_2", "medium"⟩, ⟨"gauntlet_3", "hard"⟩,
   ⟨"gauntlet_4", "expert"⟩, ⟨"gauntlet_5", "master"⟩]

/-- `BracketGenerator.generateGauntlet`: throws unless exactly one
participant; one match per scenario step, all in one final round. -/
def generateGauntlet (participants : List Participant) :
    Except String (Bracket Participant) :=
  match participants with
  | [p] =>
    .ok ⟨"gauntlet",
      [{ id := "gauntlet_round", number := 1,
         matches' := gauntletScenarios.enum.map (fun pr =>
           { id := "gauntlet_" ++ toString (pr.1 + 1),
             participant1 := some p, participant2 := none,
             scenario := some pr.2, status := "pending", result := none }),
         isFinal := true, nextRound := none }]⟩
  | _ => .error "Gauntlet mode requires exactly one participant"

/-- A team object built by `createTeams`. -/
structure TeamT where
  id : String
  members : List Participant
deriving DecidableEq, Repr, Inhabited

/-- `BracketGenerator.createTeams`: pair participants two at a time in input
order; a trailing unpaired participant is dropped. -/
def createTeamsAux (idx : Nat) : List Participant → List TeamT
  | p :: q :: rest => ⟨"team_" ++ toString idx, [p, q]⟩ :: createTeamsAux (idx + 1) rest
  | _ => []

/-- `createTeams` with its 1-based team ids. -/
def createTeams (participants : List Participant) : List TeamT :=
  createTeamsAux 1 participants

/-- The bracket stored on a tournament: team battles store a bracket of team
objects, every other format a bracket of participants. -/
inductive StoredBracket where
  | ofParticipants (b : Bracket Participant)
  | ofTeams (b : Bracket TeamT)
deriving DecidableEq, Repr

/-- The `type` strings accepted by `BracketGenerator.generate`. -/
inductive TournamentType where
  | singleElimination
  | roundRobin
  | gauntlet
  | teamBattle
deriving DecidableEq, Repr

/-- `BracketGenerator.generate`: dispatch on the tournament type; only the
gauntlet branch can throw (the enum rules out the unknown-type branch). -/
def generate (participants : List Participant) :
    TournamentType → Except String StoredBracket
  | .singleElimination => .ok (.ofParticipants (generateSingleElimination participants))
  | .roundRobin => .ok (.ofParticipants (generateRoundRobin participants))
  | .gauntlet => (generateGauntlet participants).map .ofParticipants
  | .teamBattle => .ok (.ofTeams (generateSingleElimination (createTeams participants)))

/-! ### Match execution and winner advancement: `TournamentManager` -/

/-- An agent record as returned by `storage.getAgent`; only `id` is read by
`runMatch`. -/
structure AgentRec where
  id : String
deriving DecidableEq, Repr

/-- The outcome of `simulateMatch`; `score` and `metrics` come from
`Math.random` and are claim-irrelevant, so only `winner` is kept. -/
structure SimOutcome where
  winner : String
deriving DecidableEq, Repr

/-- `TournamentManager.runMatch`.  The whole body sits in a `try` whose
`catch` returns `{ winner: null, error }`, so every failure — a missing
participant slot (a JS `TypeError` on `.agentId`), a missing agent record, or
a throwing simulation — yields a null-winner result instead of propagating.
Storage is the external persistence collaborator, passed as `lookup`; the
simulation is passed as `simulate`. -/
def runMatch (lookup : String → Option AgentRec)
    (simulate : AgentRec → AgentRec → Except String SimOutcome)
    (m : MatchSlot Participant) : MatchResult :=
  match m.participant1, m.participant2 with
  | some p1, some p2 =>
    match lookup p1.agentId, lookup p2.agentId with
    | some agent1, some agent2 =>
      match simulate agent1 agent2 with
      | .ok sim =>
        { winner := some sim.winner,
          loser := some (if sim.winner = agent1.id then agent2.id else agent1.id),
          error := none }
      | .error e => { winner := none, loser := none, error := some e }
    | _, _ =>
      { winner := none, loser := none, error := some "One or both agents not found" }
  | _, _ =>
    { winner := none, loser := none,
      error := some "TypeError: cannot read agentId of undefined" }

/-- The result-assignment loop of `TournamentManager.processRound`: every
match gets its own `runMatch` result and status `completed`. -/
def processRound (lookup : String → Option AgentRec)
    (simulate : AgentRec → AgentRec → Except String SimOutcome)
    (round : Round Participant) : Round Participant :=
  { round with matches' := round.matches'.map (fun m =>
      { m with result := some (runMatch lookup simulate m), status := "completed" }) }

/-- In-place update of the element at an index, as JS
`nextRound.matches[i] = ...`; `advanceWinners` only ever hits indices that
exist in a linked next round (JS would throw on an out-of-range slot). -/
def modifyAt {α : Type} (f : α → α) : Nat → List α → List α
  | _, [] => []
  | 0, a :: as => f a :: as
  | n + 1, a :: as => a :: modifyAt f n as

/-- The `forEach` body of `TournamentManager.advanceWinners`: each source
match with a truthy winner writes it into the next round's match at index
`floor(i / 2)`, slot `participant1` for even `i` and `participant2` for odd
`i`. -/
def advanceMatches (srcMatches : List (MatchSlot Participant))
    (dst : List (MatchSlot Participant)) : List (MatchSlot Participant) :=
  srcMatches.enum.foldl
    (fun acc pr =>
      match pr.2.result with
      | some res =>
        match res.winner with
        | some w =>
          modifyAt
            (fun nm =>
              if pr.1 % 2 = 0 then { nm with participant1 := some ⟨w⟩ }
              else { nm with participant2 := some ⟨w⟩ })
            (pr.1 / 2) acc
        | none => acc
      | none => acc)
    dst

/-- `TournamentManager.advanceWinners`: a no-op unless `round.nextRound` is
set and names a round present in the bracket. -/
def advanceWinners (round : Round Participant) (bracket : Bracket Participant) :
    Bracket Participant :=
  match round.nextRound with
  | none => bracket
  | some nrId =>
    if (bracket.rounds.find? (fun r => decide (r.id = nrId))).isSome then
      { bracket with rounds := bracket.rounds.map (fun r =>
          if r.id = nrId then
            { r with matches' := advanceMatches round.matches' r.matches' }
          else r) }
    else bracket

end AgentArcade

namespace AgentArcade

/-! ### Theorems for claims C1, C2, C8 -/

/-- `seRounds` stops as soon as at most one participant is left. -/
theorem seRounds_nil {P : Type} (roundNumber : Nat) (ps : List P)
    (h : ¬ 1 < ps.length) : seRounds roundNumber ps = [] := by
  rw [seRounds]
  simp [h]

/-- **C1.** The claim fails on the code: for every participant list of length
at least 3, `generateSingleElimination` emits exactly one round — the
`while` loop's survivor pool receives only byes, never winners — whereas
`ceil(log2 N)` is at least 2.  (For N = 2 the single round coincides with
`ceil(log2 2) = 1`.) -/
theorem generateSingleElimination_one_round (ps : List Participant)
    (h : 3 ≤ ps.length) :
    (generateSingleElimination ps).rounds.length = 1 ∧
    (generateSingleElimination ps).rounds.length ≠ Nat.clog 2 ps.length := by
  have hgt : 1 < ps.length := by omega
  have h1 : (generateSingleElimination ps).rounds.length = 1 := by
    show (seRounds 1 ps).length = 1
    rw [seRounds]
    rw [dif_pos hgt]
    have hb := pairOffSE_snd_length ps 1 1
    have hnil : seRounds 2 (pairOffSE 1 1 ps).2 = [] :=
      seRounds_nil 2 _ (by omega)
    simp [hnil]
  refine ⟨h1, ?_⟩
  rw [h1]
  have hpow : 2 ^ 1 < ps.length := by omega
  have h2 : 1 < Nat.clog 2 ps.length :=
    (Nat.pow_lt_iff_lt_clog (by norm_num)).1 hpow
  omega

/-- The seed-order participant list `[A, B, C, D]` of the spec's worked
example. -/
def exParticipants : List Participant := [⟨"A"⟩, ⟨"B"⟩, ⟨"C"⟩, ⟨"D"⟩]

/-- Witness for C1 at the concrete 4-participant list. -/
theorem generateSingleElimination_one_round_witness :
    (generateSingleElimination exParticipants).rounds.length = 1 ∧
    (generateSingleElimination exParticipants).rounds.length
      ≠ Nat.clog 2 exParticipants.length :=
  generateSingleElimination_one_round exParticipants (by decide)

/-- Every agent record exists, for the worked example. -/
def exLookup : String → Option AgentRec := fun id => some ⟨id⟩

/-- A simulation under which A beats B and D beats C. -/
def exSimulate : AgentRec → AgentRec → Except String SimOutcome :=
  fun agent1 agent2 => .ok ⟨if agent1.id = "C" then agent2.id else agent1.id⟩

/-- The generated bracket for `[A, B, C, D]`. -/
def exBracket : Bracket Participant := generateSingleElimination exParticipants

/-- Round 1 of the worked example after `processRound` resolved both matches
(A beat B, D beat C). -/
def exRound1Done : Round Participant :=
  processRound exLookup exSimulate (exBracket.rounds.headI)

/-- The bracket as mutated by `processRound` (the source writes the results
into the same round objects held by the bracket). -/
def exBracketDone : Bracket Participant := { exBracket with rounds := [exRound1Done] }

/-- Evaluating the generator on the worked example: one pending round with
matches `(A, B)` and `(C, D)`, not flagged final, without a `nextRound`
link. -/
theorem exBracket_eval :
    exBracket = ⟨"single-elimination",
      [{ id := "round_1", number := 1,
         matches' :=
           [{ id := "match_1_1", participant1 := some ⟨"A"⟩,
              participant2 := some ⟨"B"⟩, scenario := none,
              status := "pending", result := none },
            { id := "match_1_2", participant1 := some ⟨"C"⟩,
              participant2 := some ⟨"D"⟩, scenario := none,
              status := "pending", result := none }],
         isFinal := false, nextRound := none }]⟩ := by
  show generateSingleElimination exParticipants = _
  unfold generateSingleElimination
  rw [seRounds, dif_pos (by decide : 1 < exParticipants.length),
    seRounds_nil 2 ((pairOffSE 1 1 exParticipants).2) (by decide)]
  decide

/-- **C2.** The claim fails on the code at the spec's own worked example:
the generated bracket for `[A, B, C, D]` has a single round (so no final
round exists to hold `(A, D)`), round 1's resolved winners are A and D, and
`advanceWinners` leaves the bracket untouched because generated rounds carry
no `nextRound` link. -/
theorem advanceWinners_example_noop :
    exBracketDone.rounds.length = 1 ∧
    exRound1Done.matches'.map (fun m => m.result.bind MatchResult.winner)
      = [some "A", some "D"] ∧
    advanceWinners exRound1Done exBracketDone = exBracketDone := by
  unfold exBracketDone exRound1Done
  rw [exBracket_eval]
  refine ⟨rfl, by decide, by decide⟩

/-- **C8.** `processRound` resolves every match of the round: the processed
round has the same number of matches, the match at each index carries status
`completed` and exactly its own `runMatch` result (independent of every other
match), and a match whose simulation throws yields a null-winner result with
the error message recorded. -/
theorem processRound_spec (lookup : String → Option AgentRec)
    (simulate : AgentRec → AgentRec → Except String SimOutcome)
    (round : Round Participant) :
    (processRound lookup simulate round).matches'.length
      = round.matches'.length ∧
    (∀ j : Nat, (processRound lookup simulate round).matches'[j]?
      = (round.matches'[j]?).map (fun m =>
          { m with result := some (runMatch lookup simulate m),
                   status := "completed" })) ∧
    (∀ (m : MatchSlot Participant) (p1 p2 : Participant) (a1 a2 : AgentRec)
       (e : String),
       m.participant1 = some p1 → m.participant2 = some p2 →
       lookup p1.agentId = some a1 → lookup p2.agentId = some a2 →
       simulate a1 a2 = .error e →
       (runMatch lookup simulate m).winner = none ∧
       (runMatch lookup simulate m).error = some e) := by
  refine ⟨by simp [processRound], ?_, ?_⟩
  · intro j
    simp [processRound]
  · intro m p1 p2 a1 a2 e h1 h2 hl1 hl2 hs
    simp [runMatch, h1, h2, hl1, hl2, hs]

/-- A lookup with agent "X" missing, for the C8 witness. -/
def lookupNoX : String → Option AgentRec :=
  fun id => if id = "X" then none else some ⟨id⟩

/-- A simulation that always throws, for the C8 witness. -/
def simulateBoom : AgentRec → AgentRec → Except String SimOutcome :=
  fun _ _ => .error "boom"

/-- A concrete pending match between A and B, for the C8 witness. -/
def matchEx : MatchSlot Participant :=
  { id := "m1", participant1 := some ⟨"A"⟩, participant2 := some ⟨"B"⟩,
    scenario := none, status := "pending", result := none }

/-- A concrete one-match round, for the C8 witness. -/
def roundEx : Round Participant :=
  { id := "round_1", number := 1, matches' := [matchEx],
    isFinal := true, nextRound := none }

/-- Witness for C8: the throwing simulation is caught and recorded as a
null-winner result. -/
theorem processRound_spec_witness :
    (runMatch lookupNoX simulateBoom matchEx).winner = none ∧
    (runMatch lookupNoX simulateBoom matchEx).error = some "boom" :=
  (processRound_spec lookupNoX simulateBoom roundEx).2.2
    matchEx ⟨"A"⟩ ⟨"B"⟩ ⟨"A"⟩ ⟨"B"⟩ "boom" rfl rfl (by decide) (by decide) rfl

/-! ### Tournament lifecycle: `TournamentManager` status machine

`joinTournament` / `startTournament` / `completeTournament` are embedded as
state-passing functions on a tournament record; a thrown JS error is the
`Option String` component, with the (possibly mutated) tournament alongside,
since `startTournament`'s `catch` mutates `status` before rethrowing.
Storage writes, timestamps and the per-round match processing (whose effect
on `status` is completion or failure) are external, so the processing result
is the oracle `ProcessOutcome`.
-/

/-- Tournament `status` values occurring in the source. -/
inductive TStatus where
  | registration
  | running
  | completed
  | error
deriving DecidableEq, Repr

/-- The tournament fields the status machine reads and writes.  `joinedAt`
timestamps and the reward/requirement payloads live with external
collaborators and are claim-irrelevant. -/
structure Tournament where
  id : String
  ttype : TournamentType
  maxParticipants : Nat
  participants : List Participant
  bracket : Option StoredBracket
  status : TStatus
deriving DecidableEq, Repr

/-- `minParticipants` per `this.tournamentTypes`. -/
def minParticipants : TournamentType → Nat
  | .singleElimination => 4
  | .roundRobin => 3
  | .gauntlet => 1
  | .teamBattle => 4

/-- `TournamentManager.shouldAutoStart`. -/
def shouldAutoStart (t : Tournament) : Bool :=
  decide (minParticipants t.ttype ≤ t.participants.length) &&
  decide (t.participants.length = t.maxParticipants)

/-- Oracle for what `processTournamentRounds` did: reached and completed a
final round, returned with rounds still pending, or threw. -/
inductive ProcessOutcome where
  | finished
  | unfinished
  | failed
deriving DecidableEq, Repr

/-- `TournamentManager.completeTournament` (status write; rankings, rewards
and leaderboards go to external collaborators). -/
def completeTournament (t : Tournament) : Tournament :=
  { t with status := .completed }

/-- `TournamentManager.startTournament`: refuses unless `status` is
`registration`; then generates the bracket, sets `running`, and processes the
rounds.  A throw from `generate` or from round processing lands in the
`catch`, which writes `status = 'error'` and rethrows. -/
def startTournament (t : Tournament) (outcome : ProcessOutcome) :
    Tournament × Option String :=
  if t.status ≠ .registration then
    (t, some "Tournament cannot be started")
  else
    match generate t.participants t.ttype with
    | .error e => ({ t with status := .error }, some e)
    | .ok br =>
      let t1 := { t with bracket := some br, status := .running }
      match outcome with
      | .finished => (completeTournament t1, none)
      | .unfinished => (t1, none)
      | .failed => ({ t1 with status := .error }, some "tournament processing failed")

/-- `TournamentManager.joinTournament` for an existing tournament: the four
guard throws in source order (closed registration, full, duplicate agent,
requirements — the latter passed in as the `eligible` oracle since it reads
storage), then the participant push and the auto-start call. -/
def joinTournament (t : Tournament) (agentId : String) (eligible : Bool)
    (outcome : ProcessOutcome) : Tournament × Option String :=
  if t.status ≠ .registration then
    (t, some "Tournament registration is closed")
  else if t.maxParticipants ≤ t.participants.length then
    (t, some "Tournament is full")
  else if t.participants.any (fun p => decide (p.agentId = agentId)) then
    (t, some "Agent already registered")
  else if ¬ eligible then
    (t, some "Agent does not meet tournament requirements")
  else
    let t1 := { t with participants := t.participants ++ [⟨agentId⟩] }
    if shouldAutoStart t1 then startTournament t1 outcome
    else (t1, none)

/-- Forward position of a status along
`registration → running → completed/error`. -/
def statusRank : TStatus → Nat
  | .registration => 0
  | .running => 1
  | .completed => 2
  | .error => 2

end AgentArcade

namespace AgentArcade

/-! ### Theorem for claim C6 -/

/-- **C6.** The tournament status machine only moves forward along
`registration → running → completed` (with `error` as a terminal reached only
through failure), never backward: `joinTournament` and `startTournament`
never decrease the status rank, `completeTournament` moves `running` to
`completed` — and once the status is not `registration`, a join call returns
the closed-registration error with the tournament (hence its participants
list) unchanged. -/
theorem tournamentStatus_monotone (t : Tournament) (agentId : String)
    (eligible : Bool) (outcome : ProcessOutcome) :
    (t.status ≠ .registration →
      joinTournament t agentId eligible outcome
        = (t, some "Tournament registration is closed")) ∧
    statusRank t.status
      ≤ statusRank (joinTournament t agentId eligible outcome).1.status ∧
    statusRank t.status ≤ statusRank (startTournament t outcome).1.status ∧
    (t.status = .running → (completeTournament t).status = .completed) := by
  refine ⟨?_, ?_, ?_, fun _ => rfl⟩
  · intro h
    simp [joinTournament, h]
  · cases ht : t.status
    case registration => exact Nat.zero_le _
    case running => simp [joinTournament, ht]
    case completed => simp [joinTournament, ht]
    case error => simp [joinTournament, ht]
  · cases ht : t.status
    case registration => exact Nat.zero_le _
    case running => simp [startTournament, ht]
    case completed => simp [startTournament, ht]
    case error => simp [startTournament, ht]

/-- A concrete tournament already running, for the C6 witness. -/
def tournamentEx : Tournament :=
  { id := "t1", ttype := .singleElimination, maxParticipants := 4,
    participants := [⟨"A"⟩, ⟨"B"⟩, ⟨"C"⟩, ⟨"D"⟩], bracket := none,
    status := .running }

/-- Witness for C6: joining a running tournament fails and leaves it
unchanged. -/
theorem tournamentStatus_monotone_witness :
    joinTournament tournamentEx "agent9" true .unfinished
      = (tournamentEx, some "Tournament registration is closed") :=
  (tournamentStatus_monotone tournamentEx "agent9" true .unfinished).1 (by decide)

end AgentArcade

namespace AgentArcade

/-! ### Scenario execution loop: `ScenarioExecution`
(src/js/modules/scenarios.js)

`run()` wraps the per-type execution in a `try` whose `catch` returns
`generateErrorResults(error)`; `code_debugging` dispatches to
`runDebuggingScenario` (step cap 5), every other environment type reaches
`runGenericScenario` (step cap 10) either directly or through the placeholder
runners.  The agent's `makeDecision` is the external decision capability,
embedded as an oracle indexed by the iteration; the wall-clock `isTimedOut()`
check and the `Math.random`-driven `evaluateDebugDecision` fix detection are
likewise oracles.  Per-step payloads other than the decision (feedback
strings, random impact, timestamps) are claim-irrelevant and dropped from the
step records.
-/

/-- A decision returned by the external capability. -/
structure DecisionT where
  action : String
deriving DecidableEq, Repr

/-- One entry of `this.steps`. -/
structure StepRecord where
  step : Nat
  decision : DecisionT
deriving DecidableEq, Repr

/-- The scenario fields the execution loop dispatches on:
`environment.type` and `environment.expectedFixes`. -/
structure Scenario where
  id : String
  envType : String
  expectedFixes : Nat
deriving DecidableEq, Repr

/-- The terminal result record (`generateResults` /
`generateErrorResults`): `success` is the `completed` flag (false with the
error message on the error path), `stepsCount` is `this.steps.length`. -/
structure RunResult where
  scenarioId : String
  success : Bool
  error : Option String
  stepsCount : Nat
deriving DecidableEq, Repr

/-- The step cap of the dispatched runner: 5 for debugging scenarios
(`while (step < 5 ...)`), 10 for the generic runner (`maxSteps = 10`). -/
def stepCap (s : Scenario) : Nat :=
  if s.envType = "code_debugging" then 5 else 10

/-- The `while (step < maxSteps && !this.isComplete() && !this.isTimedOut())`
loop of `runGenericScenario`, recursing on `fuel = maxSteps - step` so the
`step < maxSteps` test is the `0` case.  `isComplete()` is
`this.steps.length >= 5`.  A throwing `makeDecision` aborts to `run()`'s
catch, carried as the `Option String` component alongside the steps pushed so
far. -/
def runGenericLoop (agent : Nat → Except String DecisionT)
    (timedOut : Nat → Bool) :
    Nat → Nat → List StepRecord → List StepRecord × Option String
  | 0, _, steps => (steps, none)
  | fuel + 1, step, steps =>
    if 5 ≤ steps.length then (steps, none)
    else if timedOut step then (steps, none)
    else
      match agent step with
      | .error e => (steps, some e)
      | .ok d =>
        runGenericLoop agent timedOut fuel (step + 1)
          (steps ++ [{ step := step + 1, decision := d }])

/-- The `while (step < 5 && fixesFound < expectedFixes && !this.isTimedOut())`
loop of `runDebuggingScenario`; `fixOracle` stands for the random
`evaluateDebugDecision(...).fixFound`.  Returns the steps, the final
`fixesFound`, and the pending throw if any. -/
def runDebugLoop (agent : Nat → Except String DecisionT)
    (timedOut : Nat → Bool) (fixOracle : Nat → Bool) (expectedFixes : Nat) :
    Nat → Nat → Nat → List StepRecord × Nat × Option String
  | 0, _, fixesFound => ([], fixesFound, none)
  | fuel + 1, step, fixesFound =>
    if expectedFixes ≤ fixesFound then ([], fixesFound, none)
    else if timedOut step then ([], fixesFound, none)
    else
      match agent step with
      | .error e => ([], fixesFound, some e)
      | .ok d =>
        let fixesFound' := if fixOracle step then fixesFound + 1 else fixesFound
        let rest := runDebugLoop agent timedOut fixOracle expectedFixes
          fuel (step + 1) fixesFound'
        ({ step := step + 1, decision := d } :: rest.1, rest.2)

/-- `ScenarioExecution.run`: dispatch on `environment.type`; the debug runner
sets `completed = fixesFound >= expectedFixes`, the generic runner never sets
`completed` (so `generateResults` reports `success: false`); a throw reaches
`generateErrorResults`. -/
def runScenario (s : Scenario) (agent : Nat → Except String DecisionT)
    (timedOut : Nat → Bool) (fixOracle : Nat → Bool) : RunResult :=
  if s.envType = "code_debugging" then
    match runDebugLoop agent timedOut fixOracle s.expectedFixes 5 0 0 with
    | (steps, fixesFound, none) =>
      { scenarioId := s.id, success := decide (s.expectedFixes ≤ fixesFound),
        error := none, stepsCount := steps.length }
    | (steps, _, some e) =>
      { scenarioId := s.id, success := false, error := some e,
        stepsCount := steps.length }
  else
    match runGenericLoop agent timedOut 10 0 [] with
    | (steps, none) =>
      { scenarioId := s.id, success := false, error := none,
        stepsCount := steps.length }
    | (steps, some e) =>
      { scenarioId := s.id, success := false, error := some e,
        stepsCount := steps.length }

end AgentArcade

namespace AgentArcade

/-! ### Theorems for claims C9, C10 -/

/-- The generic loop never grows the step list beyond the 5-step completion
check: once `isComplete()` holds the loop exits before recording more. -/
theorem runGenericLoop_length_le (agent : Nat → Except String DecisionT)
    (timedOut : Nat → Bool) :
    ∀ (fuel step : Nat) (steps : List StepRecord), steps.length ≤ 5 →
      (runGenericLoop agent timedOut fuel step steps).1.length ≤ 5 := by
  intro fuel
  induction fuel with
  | zero =>
    intro step steps h
    simpa [runGenericLoop] using h
  | succ fuel ih =>
    intro step steps h
    by_cases h5 : 5 ≤ steps.length
    · simpa [runGenericLoop, h5] using h
    · cases hT : timedOut step
      · cases hA : agent step with
        | error e => simpa [runGenericLoop, h5, hT, hA] using h
        | ok d =>
          have h' : (steps ++ [(⟨step + 1, d⟩ : StepRecord)]).length ≤ 5 := by
            simp only [List.length_append, List.length_cons, List.length_nil]
            omega
          simpa [runGenericLoop, h5, hT, hA] using ih (step + 1) _ h'
      · simpa [runGenericLoop, h5, hT] using h

/-- With a never-throwing agent and no timeout, the generic loop runs until
the 5-step completion check fires, well before the 10-step cap. -/
theorem runGenericLoop_length_eq (agent : Nat → Except String DecisionT)
    (timedOut : Nat → Bool) (hok : ∀ k, ∃ d, agent k = .ok d)
    (hto : ∀ k, timedOut k = false) :
    ∀ (fuel step : Nat) (steps : List StepRecord), steps.length ≤ 5 →
      5 ≤ steps.length + fuel →
      (runGenericLoop agent timedOut fuel step steps).1.length = 5 := by
  intro fuel
  induction fuel with
  | zero =>
    intro step steps h1 h2
    have h3 : steps.length = 5 := by omega
    simpa [runGenericLoop] using h3
  | succ fuel ih =>
    intro step steps h1 h2
    by_cases h5 : 5 ≤ steps.length
    · have h3 : steps.length = 5 := by omega
      simpa [runGenericLoop, h5] using h3
    · obtain ⟨d, hd⟩ := hok step
      have h1' : (steps ++ [(⟨step + 1, d⟩ : StepRecord)]).length ≤ 5 := by
        simp only [List.length_append, List.length_cons, List.length_nil]
        omega
      have h2' : 5 ≤ (steps ++ [(⟨step + 1, d⟩ : StepRecord)]).length + fuel := by
        simp only [List.length_append, List.length_cons, List.length_nil]
        omega
      simpa [runGenericLoop, h5, hto step, hd] using ih (step + 1) _ h1' h2'

/-- **C9.** For every scenario whose debug fix target is positive (all
registered debug scenarios have `expectedFixes` 3 or 5) and every agent whose
decision capability always throws, the run — a total function, so it always
terminates — records no more steps than the dispatched runner's cap and
returns an error-tagged result (`success: false` with the thrown message)
instead of rethrowing; the timeout check at iteration 0 is false because no
wall-clock time has elapsed at the first iteration. -/
theorem runScenario_error_contained (s : Scenario)
    (agent : Nat → Except String DecisionT) (timedOut fixOracle : Nat → Bool)
    (hthrow : ∀ k, ∃ m, agent k = .error m)
    (ht0 : timedOut 0 = false)
    (hfix : s.envType = "code_debugging" → 0 < s.expectedFixes) :
    (runScenario s agent timedOut fixOracle).success = false ∧
    (∃ m, (runScenario s agent timedOut fixOracle).error = some m) ∧
    (runScenario s agent timedOut fixOracle).stepsCount ≤ stepCap s := by
  obtain ⟨m, hm⟩ := hthrow 0
  by_cases henv : s.envType = "code_debugging"
  · have hf : ¬ (s.expectedFixes ≤ 0) := by
      have := hfix henv
      omega
    have hEval : runDebugLoop agent timedOut fixOracle s.expectedFixes 5 0 0
        = ([], 0, some m) := by
      rw [show (5 : Nat) = 4 + 1 from rfl]
      simp [runDebugLoop, hf, ht0, hm]
    unfold runScenario
    rw [if_pos henv, hEval]
    refine ⟨rfl, ⟨m, rfl⟩, ?_⟩
    simp [stepCap, henv]
  · have hEval : runGenericLoop agent timedOut 10 0 [] = ([], some m) := by
      rw [show (10 : Nat) = 9 + 1 from rfl]
      simp [runGenericLoop, ht0, hm]
    unfold runScenario
    rw [if_neg henv, hEval]
    refine ⟨rfl, ⟨m, rfl⟩, ?_⟩
    simp [stepCap, henv]

/-- **C10.** For every non-debugging scenario run whose decisions all apply
without throwing, the result records at most 5 steps — exactly 5 when no
timeout fires, since `isComplete()` ends the loop at 5 recorded steps, before
the 10-step cap — and `success` is false because the generic loop never sets
the `completed` flag. -/
theorem runScenario_generic_spec (s : Scenario)
    (agent : Nat → Except String DecisionT) (timedOut fixOracle : Nat → Bool)
    (hgen : s.envType ≠ "code_debugging")
    (hok : ∀ k, ∃ d, agent k = .ok d) :
    (runScenario s agent timedOut fixOracle).stepsCount ≤ 5 ∧
    (runScenario s agent timedOut fixOracle).success = false ∧
    ((∀ k, timedOut k = false) →
      (runScenario s agent timedOut fixOracle).stepsCount = 5) := by
  have hle := runGenericLoop_length_le agent timedOut 10 0 [] (by simp)
  unfold runScenario
  rw [if_neg hgen]
  rcases hEval : runGenericLoop agent timedOut 10 0 [] with ⟨steps, err⟩
  rw [hEval] at hle
  cases err with
  | none =>
    refine ⟨by simpa using hle, rfl, ?_⟩
    intro hto
    have heq := runGenericLoop_length_eq agent timedOut hok hto 10 0 []
      (by simp) (by simp)
    rw [hEval] at heq
    simpa using heq
  | some e =>
    refine ⟨by simpa using hle, rfl, ?_⟩
    intro hto
    have heq := runGenericLoop_length_eq agent timedOut hok hto 10 0 []
      (by simp) (by simp)
    rw [hEval] at heq
    simpa using heq

/-- A concrete generic scenario, used by the C9 and C10 witnesses. -/
def scenarioExGeneric : Scenario := ⟨"s1", "generic", 0⟩

/-- An always-throwing decision capability, for the C9 witness. -/
def agentThrow : Nat → Except String DecisionT :=
  fun _ => .error "decision capability offline"

/-- A never-throwing decision capability, for the C10 witness. -/
def agentOk : Nat → Except String DecisionT := fun _ => .ok ⟨"act"⟩

/-- A timeout oracle that never fires. -/
def neverTimedOut : Nat → Bool := fun _ => false

/-- A fix oracle that never finds a fix. -/
def noFix : Nat → Bool := fun _ => false

/-- Witness for C9 at the concrete generic scenario. -/
theorem runScenario_error_contained_witness :
    (runScenario scenarioExGeneric agentThrow neverTimedOut noFix).success = false ∧
    (∃ m, (runScenario scenarioExGeneric agentThrow neverTimedOut noFix).error
      = some m) ∧
    (runScenario scenarioExGeneric agentThrow neverTimedOut noFix).stepsCount
      ≤ stepCap scenarioExGeneric :=
  runScenario_error_contained scenarioExGeneric agentThrow neverTimedOut noFix
    (fun _ => ⟨"decision capability offline", rfl⟩) rfl
    (fun h => absurd h (by decide))

/-- Witness for C10 at the concrete generic scenario. -/
theorem runScenario_generic_spec_witness :
    (runScenario scenarioExGeneric agentOk neverTimedOut noFix).stepsCount ≤ 5 ∧
    (runScenario scenarioExGeneric agentOk neverTimedOut noFix).success = false ∧
    (runScenario scenarioExGeneric agentOk neverTimedOut noFix).stepsCount = 5 :=
  ⟨(runScenario_generic_spec scenarioExGeneric agentOk neverTimedOut noFix
      (by decide) (fun _ => ⟨⟨"act"⟩, rfl⟩)).1,
   (runScenario_generic_spec scenarioExGeneric agentOk neverTimedOut noFix
      (by decide) (fun _ => ⟨⟨"act"⟩, rfl⟩)).2.1,
   (runScenario_generic_spec scenarioExGeneric agentOk neverTimedOut noFix
      (by decide) (fun _ => ⟨⟨"act"⟩, rfl⟩)).2.2 (fun _ => rfl)⟩

end AgentArcade
